import Mathlib

/-!
Verification development for the objexplore repository.

The repository ships two Python source files:
- `objexplore/objexplore.py` — the application class `ObjExploreApp` with the
  key-driven event loop, the render/error routines, and the module-level
  entry point `explore`.
- `qrcodeGenerator.py` — a single-purpose QR-code generation script.

The companion modules (`explorer.py`, `overview.py`, `cached_object.py`,
`help_layout.py`) are not part of the source tree; the state they own is
modelled from the specification and marked as such.  Everything in
`objexplore.py` itself is transcribed branch by branch.
-/

/-- A raw Python object as seen by the application: an identity and the one
property the event loop inspects, the result of the builtin callable test
(`callable(obj)` at objexplore.py line 303). -/
structure PyObj where
  oid : Nat
  isCallable : Bool
deriving DecidableEq, Repr

/-- Modelled from the spec: `CachedObject` (cached_object.py, absent from the
source tree) — a node describing one object with its two ordered child lists
(public and private attributes).  Laziness of child caching is irrelevant to
the claims settled here, so a node carries its children directly. -/
inductive CObj where
  | node (attrName : String) (obj : PyObj) (pub : List CObj) (priv : List CObj)

/-- The attribute name of a cached node. -/
def CObj.attrName : CObj → String
  | .node n _ _ _ => n

/-- The wrapped raw object of a cached node. -/
def CObj.obj : CObj → PyObj
  | .node _ o _ _ => o

/-- The public child list of a cached node. -/
def CObj.pubChildren : CObj → List CObj
  | .node _ _ p _ => p

/-- The private child list of a cached node. -/
def CObj.privChildren : CObj → List CObj
  | .node _ _ _ q => q

/-- Key codes used by `process_key_event` (blessed terminal key constants). -/
inductive KeyCode where
  | up | down | left | right | enter | escape | backspace
deriving DecidableEq, Repr

/-- A key event: either a printable character (whose `.code` is `None` in
blessed, so it never equals a key-code constant) or a special key carrying a
key code (whose string form is an escape sequence, so it never equals a
one-character string such as "q"). -/
inductive Key where
  | ch (c : Char)
  | code (k : KeyCode)
deriving DecidableEq, Repr

/-- A Python exception that can be raised while drawing or while a component
call handles a key: a `RuntimeError` carrying its first argument, or any
other `Exception` identified by name. -/
inductive PyErr where
  | runtimeError (msg : String)
  | otherError (name : String)
deriving DecidableEq, Repr

/-- A single quotation mark, kept out of string literals. -/
def quoteMark : String := String.mk [Char.ofNat 39]

/-- The exact message of the reentrant-write `RuntimeError` that the event
loop silently drops (objexplore.py lines 77–81). -/
def reentrantMsg : String :=
  "reentrant call inside <_io.BufferedWriter name=" ++ quoteMark ++ "<stdout>" ++ quoteMark ++ ">"

/-- Whether an exception is the reentrant-stdout `RuntimeError` recognised at
objexplore.py lines 75–81: a `RuntimeError` whose first argument is the
reentrant-write message.  Any other exception type, and any `RuntimeError`
with a different message, falls to the `raise err` branch. -/
def isReentrant : PyErr → Bool
  | .runtimeError msg => msg == reentrantMsg
  | .otherError _ => false

/-- The opening curly bracket character. -/
def lbrace : Char := Char.ofNat 123

/-- The closing curly bracket character. -/
def rbrace : Char := Char.ofNat 125

/-- Modelled from the spec: the `Filter` component (owned by the explorer
module, absent from the source tree) — live search buffer with cursor, the
committed visible set, overlay visibility, input-capture flag, the filter
panel selection index and the manual include/exclude overrides. -/
structure FilterState where
  receivingInput : Bool
  layoutVisible : Bool
  searchBuffer : List Char
  cursorPos : Nat
  committedBuffer : List Char
  panelIndex : Nat
  overrides : List String
deriving DecidableEq, Repr

/-- Modelled from the spec: `Filter.add_search_char` — inserts the typed
character into the search buffer at the cursor and advances the cursor. -/
def FilterState.addSearchChar (c : Char) (f : FilterState) : FilterState :=
  { f with
    searchBuffer := f.searchBuffer.take f.cursorPos ++ [c] ++ f.searchBuffer.drop f.cursorPos
    cursorPos := f.cursorPos + 1 }

/-- Modelled from the spec: `Filter.backspace` — removes the character before
the cursor, if any, and moves the cursor left. -/
def FilterState.backspace (f : FilterState) : FilterState :=
  { f with
    searchBuffer := f.searchBuffer.take (f.cursorPos - 1) ++ f.searchBuffer.drop f.cursorPos
    cursorPos := f.cursorPos - 1 }

/-- Modelled from the spec: `Filter.cursor_left`. -/
def FilterState.cursorLeft (f : FilterState) : FilterState :=
  { f with cursorPos := f.cursorPos - 1 }

/-- Modelled from the spec: `Filter.cursor_right`. -/
def FilterState.cursorRight (f : FilterState) : FilterState :=
  { f with cursorPos := if f.cursorPos < f.searchBuffer.length then f.cursorPos + 1 else f.cursorPos }

/-- Modelled from the spec: `Filter.cancel_search` — discards the in-progress
edits, restores the previously committed set, and leaves capture mode. -/
def FilterState.cancelSearch (f : FilterState) : FilterState :=
  { f with
    receivingInput := false
    searchBuffer := f.committedBuffer
    cursorPos := f.committedBuffer.length }

/-- Modelled from the spec: `Filter.end_search` — commits the current buffer
as the persistent visible set and leaves capture mode. -/
def FilterState.endSearch (f : FilterState) : FilterState :=
  { f with receivingInput := false, committedBuffer := f.searchBuffer }

/-- Public/private view mode of the explorer (`ExplorerState` in the missing
explorer module). -/
inductive ExplorerState where
  | publicAttrs | privateAttrs
deriving DecidableEq, Repr

/-- A saved navigation-stack frame: the node that was open and the selection
index that was active when it was left. -/
structure StackFrame where
  node : CObj
  savedIndex : Nat

/-- Modelled from the spec: the `Explorer` component (explorer.py, absent
from the source tree) — the open node, the selection index, the
public/private view mode, the filter, the navigation stack with its overlay
visibility and browsing index, and the display-width offset. -/
structure Explorer where
  currentObj : CObj
  index : Nat
  state : ExplorerState
  filter : FilterState
  stackFrames : List StackFrame
  stackVisible : Bool
  stackIndex : Nat
  extraWidth : Int

/-- Modelled from the spec: the currently active child list (public or
private attributes of the open node). -/
def Explorer.activeChildren (e : Explorer) : List CObj :=
  match e.state with
  | .publicAttrs => e.currentObj.pubChildren
  | .privateAttrs => e.currentObj.privChildren

/-- Modelled from the spec: `Explorer.selected_object` — the child of the
open node at the selection index (the open node itself when the active list
is empty). -/
def Explorer.selectedObject (e : Explorer) : CObj :=
  e.activeChildren.getD e.index e.currentObj

/-- Modelled from the spec: `Explorer.move_up` — selection one step up,
clamped at the top. -/
def Explorer.moveUp (e : Explorer) : Explorer :=
  { e with index := e.index - 1 }

/-- Modelled from the spec: `Explorer.move_down` — selection one step down,
clamped at the bottom of the active list. -/
def Explorer.moveDown (e : Explorer) : Explorer :=
  { e with index := if e.index + 1 < e.activeChildren.length then e.index + 1 else e.index }

/-- Modelled from the spec: `Explorer.move_top`. -/
def Explorer.moveTop (e : Explorer) : Explorer :=
  { e with index := 0 }

/-- Modelled from the spec: `Explorer.move_bottom`. -/
def Explorer.moveBottom (e : Explorer) : Explorer :=
  { e with index := e.activeChildren.length - 1 }

/-- Modelled from the spec: `Explorer.explore_selected_object` — pushes the
open node with its selection index onto the navigation stack and opens the
selected child. -/
def Explorer.exploreSelectedObject (e : Explorer) : Explorer :=
  if e.index < e.activeChildren.length then
    { e with
      stackFrames := ⟨e.currentObj, e.index⟩ :: e.stackFrames
      currentObj := e.selectedObject
      index := 0 }
  else e

/-- Modelled from the spec: `Explorer.explore_parent_obj` — pops the
navigation stack, restoring the parent node and its saved selection index. -/
def Explorer.exploreParentObj (e : Explorer) : Explorer :=
  match e.stackFrames with
  | [] => e
  | f :: rest => { e with currentObj := f.node, index := f.savedIndex, stackFrames := rest }

/-- Modelled from the spec: stack-browsing selection one step down. -/
def Explorer.stackMoveDown (e : Explorer) : Explorer :=
  { e with stackIndex := if e.stackIndex + 1 < e.stackFrames.length then e.stackIndex + 1 else e.stackIndex }

/-- Modelled from the spec: stack-browsing selection one step up. -/
def Explorer.stackMoveUp (e : Explorer) : Explorer :=
  { e with stackIndex := e.stackIndex - 1 }

/-- Modelled from the spec: stack-browsing selection to the top. -/
def Explorer.stackMoveTop (e : Explorer) : Explorer :=
  { e with stackIndex := 0 }

/-- Modelled from the spec: stack-browsing selection to the bottom. -/
def Explorer.stackMoveBottom (e : Explorer) : Explorer :=
  { e with stackIndex := e.stackFrames.length - 1 }

/-- Modelled from the spec: `Explorer.explore_selected_stack_object` — jumps
directly to the ancestor chosen in the stack view, discarding every
intermediate level in one truncation. -/
def Explorer.exploreSelectedStackObject (e : Explorer) : Explorer :=
  if e.stackIndex < e.stackFrames.length then
    let f := e.stackFrames.getD e.stackIndex ⟨e.currentObj, 0⟩
    { e with
      currentObj := f.node
      index := f.savedIndex
      stackFrames := e.stackFrames.drop (e.stackIndex + 1)
      stackIndex := 0 }
  else e

/-- Modelled from the spec: filter-panel selection one step down. -/
def Explorer.filterMoveDown (e : Explorer) : Explorer :=
  { e with filter := { e.filter with panelIndex := if e.filter.panelIndex + 1 < e.activeChildren.length then e.filter.panelIndex + 1 else e.filter.panelIndex } }

/-- Modelled from the spec: filter-panel selection one step up. -/
def Explorer.filterMoveUp (e : Explorer) : Explorer :=
  { e with filter := { e.filter with panelIndex := e.filter.panelIndex - 1 } }

/-- Modelled from the spec: filter-panel selection to the top. -/
def Explorer.filterMoveTop (e : Explorer) : Explorer :=
  { e with filter := { e.filter with panelIndex := 0 } }

/-- Modelled from the spec: filter-panel selection to the bottom. -/
def Explorer.filterMoveBottom (e : Explorer) : Explorer :=
  { e with filter := { e.filter with panelIndex := e.activeChildren.length - 1 } }

/-- Modelled from the spec: `Filter.toggle` — flips the manual
include/exclude override for the attribute selected in the filter panel. -/
def Explorer.filterToggle (e : Explorer) : Explorer :=
  let n := ((e.activeChildren.map CObj.attrName).getD e.filter.panelIndex "")
  { e with filter :=
      { e.filter with overrides :=
          if n ∈ e.filter.overrides then e.filter.overrides.erase n
          else n :: e.filter.overrides } }

/-- Modelled from the spec: `Explorer.reset_index` — selection back to the
top after the visible set changes. -/
def Explorer.resetIndex (e : Explorer) : Explorer :=
  { e with index := 0 }

/-- Modelled from the spec: `Filter.clear_filters` — resets the manual
overrides and the search buffer to show-all. -/
def Explorer.clearFilters (e : Explorer) : Explorer :=
  { e with filter :=
      { e.filter with searchBuffer := [], committedBuffer := [], overrides := [], cursorPos := 0 } }

/-- Modelled from the spec: `Explorer.increase_width`. -/
def Explorer.increaseWidth (e : Explorer) : Explorer :=
  { e with extraWidth := e.extraWidth + 1 }

/-- Modelled from the spec: `Explorer.decrease_width`. -/
def Explorer.decreaseWidth (e : Explorer) : Explorer :=
  { e with extraWidth := e.extraWidth - 1 }

/-- The two panes of the help overlay (`HelpState` in help_layout.py). -/
inductive HelpState where
  | keybindings | about
deriving DecidableEq, Repr

/-- Overview content mode (`OverviewState` in the missing overview module). -/
inductive OverviewState where
  | all | docstring | value
deriving DecidableEq, Repr

/-- Overview preview mode (`PreviewState` in the missing overview module):
representation or source. -/
inductive PreviewState where
  | reprMode | sourceMode
deriving DecidableEq, Repr

/-- Modelled from the spec: the `Overview` component (overview.py, absent
from the source tree) — help-overlay visibility and pane, content mode and
preview mode. -/
structure Overview where
  helpVisible : Bool
  helpState : HelpState
  state : OverviewState
  previewState : PreviewState
deriving DecidableEq, Repr

/-- The border style of the main panel: `ObjExploreApp.main_style` is the
blue style initially and `ObjExploreApp.error_style` is the red alert
style. -/
inductive BorderStyle where
  | mainBlue | errorRed
deriving DecidableEq, Repr

/-- The full application state owned by `ObjExploreApp`: the explorer, the
overview and the current border style. -/
structure AppState where
  explorer : Explorer
  overview : Overview
  mainStyle : BorderStyle

/-- Applies an update to the explorer component of the application state. -/
def updE (s : AppState) (f : Explorer → Explorer) : AppState :=
  { s with explorer := f s.explorer }

/-- Applies an update to the overview component of the application state. -/
def updO (s : AppState) (f : Overview → Overview) : AppState :=
  { s with overview := f s.overview }

/-- Applies an update to the filter component of the application state. -/
def updFilter (s : AppState) (f : FilterState → FilterState) : AppState :=
  updE s fun e => { e with filter := f e.filter }

/-- Sets the help-overlay visibility flag. -/
def setHelpVisible (s : AppState) (b : Bool) : AppState :=
  updO s fun o => { o with helpVisible := b }

/-- `ObjExploreApp.error` (objexplore.py lines 411–416), transcribed line by
line: the border style is set to the error style, the application is redrawn,
a 250ms pause is observed, and then `self.main_style = self.main_style`
reassigns the field to itself. -/
def errorRoutine (s : AppState) : AppState :=
  let s1 := { s with mainStyle := BorderStyle.errorRed }
  { s1 with mainStyle := s1.mainStyle }

/-- The outcome of `process_key_event` on one key: a normal return with the
updated state, the `StopIteration` raised for a quit/return key (line 123),
or an exception escaping the handler, paired with the state at the moment it
was raised. -/
inductive PKResult where
  | ok (s : AppState)
  | stop (s : AppState)
  | exc (e : PyErr) (s : AppState)

/-- The application state carried by a `process_key_event` outcome. -/
def PKResult.state : PKResult → AppState
  | .ok s => s
  | .stop s => s
  | .exc _ s => s

/-- The outcome of one handler section of `process_key_event` other than the
quit/return check: these sections either return normally or let an exception
escape — none of them raises `StopIteration`, which line 123 alone does. -/
inductive HandlerResult where
  | ok (s : AppState)
  | exc (e : PyErr) (s : AppState)

/-- The application state carried by a handler outcome. -/
def HandlerResult.state : HandlerResult → AppState
  | .ok s => s
  | .exc _ s => s

/-- Embeds a handler outcome into the full `process_key_event` outcome. -/
def HandlerResult.toPK : HandlerResult → PKResult
  | .ok s => PKResult.ok s
  | .exc e s => PKResult.exc e s

/-- A dispatched branch whose body performs a component or library call: if
the oracle says the call raises, the exception escapes with the state as it
was just before the call; otherwise the branch completes in the given
state. -/
def raisedOr (oe : Option PyErr) (preCall done : AppState) : HandlerResult :=
  match oe with
  | some e => .exc e preCall
  | none => .ok done

/-- `key in ("q", "Q", "r")` at objexplore.py line 122.  Special keys render
as escape sequences and never equal a one-character string. -/
def isQuitKey : Key → Bool
  | .ch c => c == 'q' || c == 'Q' || c == 'r'
  | .code _ => false

/-- The input-capture branch of `process_key_event` (objexplore.py lines
98–120): while the filter is receiving input, every key is routed to the
filter component and the handler returns immediately. -/
def filterInputHandle (s : AppState) (k : Key) (oe : Option PyErr) : HandlerResult :=
  match k with
  | Key.code .backspace => raisedOr oe s (updFilter s FilterState.backspace)
  | Key.code .escape => raisedOr oe s (updFilter s FilterState.cancelSearch)
  | Key.code .enter => raisedOr oe s (updFilter s FilterState.endSearch)
  | Key.code .left => raisedOr oe s (updFilter s FilterState.cursorLeft)
  | Key.code .right => raisedOr oe s (updFilter s FilterState.cursorRight)
  | Key.code .up => HandlerResult.ok s
  | Key.code .down => HandlerResult.ok s
  | Key.ch c => raisedOr oe s (updFilter s (FilterState.addSearchChar c))

/-- Flips the help overlay between its keybindings and about panes
(objexplore.py lines 146–149). -/
def flipHelp : HelpState → HelpState
  | .keybindings => .about
  | .about => .keybindings

/-- The help-page section of `process_key_event` (objexplore.py lines
127–160), entered when the help overlay is visible: `Sum.inl` is an early
return, `Sum.inr` is the fall-through for j/k/o/n and the arrow keys, which
close the help overlay and let the key continue down the chain. -/
def helpHandle (s : AppState) (k : Key) (oe : Option PyErr) : Sum HandlerResult AppState :=
  if k = Key.ch '?' ∨ k = Key.code .escape ∨ k = Key.code .backspace then
    Sum.inl (HandlerResult.ok (setHelpVisible s false))
  else if k = Key.ch 'f' then
    Sum.inl (raisedOr oe s s)
  else if k = Key.ch lbrace ∨ k = Key.ch rbrace ∨ k = Key.ch '[' ∨ k = Key.ch ']' then
    Sum.inl (HandlerResult.ok (updO s fun o => { o with helpState := flipHelp o.helpState }))
  else if k = Key.ch 'j' ∨ k = Key.ch 'k' ∨ k = Key.ch 'o' ∨ k = Key.ch 'n' ∨
          k = Key.code .up ∨ k = Key.code .down then
    Sum.inr (setHelpVisible s false)
  else
    Sum.inl (HandlerResult.ok s)

/-- Flips the overview preview between representation and source
(objexplore.py lines 306–309). -/
def flipPreview : PreviewState → PreviewState
  | .reprMode => .sourceMode
  | .sourceMode => .reprMode

/-- The stack/filter/explorer/overview `elif` chain of `process_key_event`
(objexplore.py lines 168–379), transcribed branch by branch in source
order.  Branches whose body is a component or library call consult the
oracle `oe`; branches that only assign attributes cannot raise.  The `O`
branch transcribes the `try/except` of lines 351–358: any failure while
launching the editor is caught and `self.error()` runs. -/
def mainDispatch (s : AppState) (k : Key) (oe : Option PyErr) : HandlerResult :=
  if k = Key.ch 'o' then
    if s.explorer.stackVisible then
      HandlerResult.ok (updE s fun e => { e with stackVisible := false })
    else if s.explorer.filter.layoutVisible then
      raisedOr oe (updFilter s fun f => { f with layoutVisible := false })
        (updE (updFilter s fun f => { f with layoutVisible := false })
          fun e => { e with stackVisible := true })
    else
      raisedOr oe s (updE s fun e => { e with stackVisible := true })
  else if (k = Key.code .backspace ∨ k = Key.code .escape) ∧ s.explorer.stackVisible then
    HandlerResult.ok (updE s fun e => { e with stackVisible := false })
  else if (k = Key.ch ' ' ∨ k = Key.code .enter) ∧ s.explorer.stackVisible then
    raisedOr oe s (updE s Explorer.exploreSelectedStackObject)
  else if (k = Key.ch 'j' ∨ k = Key.code .down) ∧ s.explorer.stackVisible then
    raisedOr oe s (updE s Explorer.stackMoveDown)
  else if (k = Key.ch 'k' ∨ k = Key.code .up) ∧ s.explorer.stackVisible then
    raisedOr oe s (updE s Explorer.stackMoveUp)
  else if k = Key.ch 'g' ∧ s.explorer.stackVisible then
    raisedOr oe s (updE s Explorer.stackMoveTop)
  else if k = Key.ch 'G' ∧ s.explorer.stackVisible then
    raisedOr oe s (updE s Explorer.stackMoveBottom)
  else if (k = Key.ch 'l' ∨ k = Key.ch '[' ∨ k = Key.ch ']' ∨ k = Key.ch lbrace ∨
           k = Key.ch rbrace ∨ k = Key.ch 'h') ∧ s.explorer.stackVisible then
    HandlerResult.ok s
  else if k = Key.ch 'n' then
    if s.explorer.filter.layoutVisible then
      HandlerResult.ok (updFilter s fun f => { f with layoutVisible := false })
    else if s.explorer.stackVisible then
      HandlerResult.ok (updFilter (updE s fun e => { e with stackVisible := false })
        fun f => { f with layoutVisible := true })
    else
      HandlerResult.ok (updFilter s fun f => { f with layoutVisible := true })
  else if k = Key.ch '/' ∧ s.explorer.filter.receivingInput = false then
    HandlerResult.ok (updFilter (updE s fun e => { e with stackVisible := false })
      fun f => { f with receivingInput := true, layoutVisible := true })
  else if (k = Key.ch ' ' ∨ k = Key.code .enter) ∧ s.explorer.filter.layoutVisible then
    raisedOr oe s (updE s fun e => (e.filterToggle).resetIndex)
  else if (k = Key.code .escape ∨ k = Key.code .backspace) ∧ s.explorer.filter.layoutVisible then
    HandlerResult.ok (updFilter s fun f => { f with layoutVisible := false })
  else if (k = Key.ch 'j' ∨ k = Key.code .down) ∧ s.explorer.filter.layoutVisible then
    raisedOr oe s (updE s Explorer.filterMoveDown)
  else if (k = Key.ch 'k' ∨ k = Key.code .up) ∧ s.explorer.filter.layoutVisible then
    raisedOr oe s (updE s Explorer.filterMoveUp)
  else if k = Key.ch 'g' ∧ s.explorer.filter.layoutVisible then
    raisedOr oe s (updE s Explorer.filterMoveTop)
  else if k = Key.ch 'G' ∧ s.explorer.filter.layoutVisible then
    raisedOr oe s (updE s Explorer.filterMoveBottom)
  else if k = Key.ch 'c' then
    raisedOr oe s (updE s Explorer.clearFilters)
  else if k = Key.ch 'k' ∨ k = Key.code .up then
    raisedOr oe s (updE s Explorer.moveUp)
  else if k = Key.ch 'j' ∨ k = Key.code .down then
    raisedOr oe s (updE s Explorer.moveDown)
  else if k = Key.ch 'l' ∨ k = Key.code .enter ∨ k = Key.code .right then
    raisedOr oe s (updE s Explorer.exploreSelectedObject)
  else if (k = Key.ch 'h' ∨ k = Key.code .left) ∧ s.explorer.stackFrames.isEmpty = false then
    raisedOr oe s (updE s Explorer.exploreParentObj)
  else if k = Key.ch 'g' then
    raisedOr oe s (updE s Explorer.moveTop)
  else if k = Key.ch 'G' then
    raisedOr oe s (updE s Explorer.moveBottom)
  else if k = Key.ch '[' ∨ k = Key.ch ']' then
    HandlerResult.ok (updE s fun e =>
      { e with state := match e.state with
          | ExplorerState.publicAttrs => ExplorerState.privateAttrs
          | ExplorerState.privateAttrs => ExplorerState.publicAttrs })
  else if k = Key.ch '+' then
    raisedOr oe s (updE s Explorer.increaseWidth)
  else if k = Key.ch '_' ∨ k = Key.ch '-' then
    raisedOr oe s (updE s Explorer.decreaseWidth)
  else if k = Key.ch '=' then
    HandlerResult.ok (updE s fun e => { e with extraWidth := 0 })
  else if k = Key.ch lbrace ∨ k = Key.ch rbrace then
    if s.explorer.selectedObject.obj.isCallable = false then
      HandlerResult.ok s
    else
      HandlerResult.ok (updO s fun o => { o with previewState := flipPreview o.previewState })
  else if k = Key.ch 'd' then
    HandlerResult.ok (updO s fun o =>
      { o with state := if o.state ≠ OverviewState.docstring then OverviewState.docstring
                        else OverviewState.all })
  else if k = Key.ch 'p' then
    HandlerResult.ok (updO s fun o =>
      { o with state := if o.state ≠ OverviewState.value then OverviewState.value
                        else OverviewState.all })
  else if k = Key.ch 'f' then
    raisedOr oe s s
  else if k = Key.ch 'O' then
    match oe with
    | some _ => HandlerResult.ok (errorRoutine s)
    | none => HandlerResult.ok s
  else if k = Key.ch 'H' ∨ k = Key.ch 'i' ∨ k = Key.ch 'I' then
    raisedOr oe s s
  else
    HandlerResult.ok s

/-- `ObjExploreApp.process_key_event` (objexplore.py lines 95–379): the
filter input-capture check, the quit/return check, the help-page section
with its fall-through, the `?` help-open check, and then the main `elif`
chain. -/
def processKeyEvent (s : AppState) (k : Key) (oe : Option PyErr) : PKResult :=
  if s.explorer.filter.receivingInput then
    (filterInputHandle s k oe).toPK
  else if isQuitKey k then
    PKResult.stop s
  else
    match (if s.overview.helpVisible then helpHandle s k oe else Sum.inr s) with
    | Sum.inl r => r.toPK
    | Sum.inr s1 =>
      (if k = Key.ch '?' ∧ s1.overview.helpVisible = false then
        HandlerResult.ok (setHelpVisible s1 true)
      else
        mainDispatch s1 k oe).toPK

/-- One key-press iteration of the event loop, as supplied to the model: the
key that `term.inkey()` returns, an optional exception raised by the
top-of-loop `self.draw()` (where resize re-entrancy surfaces), and an
optional exception raised by the component or library call the key
dispatches to. -/
structure KeyInput where
  key : Key
  drawErr : Option PyErr
  subErr : Option PyErr

/-- The outcome of the event loop of `ObjExploreApp.explore` (objexplore.py
lines 69–88): a normal exit through `StopIteration` carrying the value that
will be returned, an exception re-raised out of the loop, or exhaustion of
the supplied inputs with the loop still running. -/
inductive LoopResult where
  | exited (res : Option PyObj) (s : AppState)
  | raised (e : PyErr) (s : AppState)
  | ranOut (s : AppState)

/-- The `while True` event loop of `ObjExploreApp.explore` (objexplore.py
lines 69–88): each iteration draws, reads a key and processes it; a
`RuntimeError` whose first argument is the reentrant-write message is
silently dropped and the loop continues; any other exception is re-raised;
`StopIteration` breaks the loop, setting the result to the selected object
when the key was "r" (lines 85–88). -/
def loop : AppState → List KeyInput → LoopResult
  | s, [] => LoopResult.ranOut s
  | s, i :: rest =>
    match i.drawErr with
    | some e => if isReentrant e then loop s rest else LoopResult.raised e s
    | none =>
      match processKeyEvent s i.key i.subErr with
      | PKResult.ok s2 => loop s2 rest
      | PKResult.stop s2 =>
        LoopResult.exited
          (if i.key = Key.ch 'r' then some s2.explorer.selectedObject.obj else none) s2
      | PKResult.exc e s2 => if isReentrant e then loop s2 rest else LoopResult.raised e s2

/-- The initial filter state of a fresh session.  Modelled from the spec:
the session starts in normal navigation with an empty search. -/
def initFilter : FilterState :=
  { receivingInput := false, layoutVisible := false, searchBuffer := [],
    cursorPos := 0, committedBuffer := [], panelIndex := 0, overrides := [] }

/-- The initial explorer state of a fresh session on a cached root object.
Modelled from the spec: the stack is empty exactly at the root, the public
view is active and the selection starts at the top. -/
def initExplorer (root : CObj) : Explorer :=
  { currentObj := root, index := 0, state := ExplorerState.publicAttrs,
    filter := initFilter, stackFrames := [], stackVisible := false,
    stackIndex := 0, extraWidth := 0 }

/-- The application state built by `ObjExploreApp.__init__` (objexplore.py
lines 43–57) on a cached root object: no overlay is visible and the border
style is the blue main style. -/
def initApp (root : CObj) : AppState :=
  { explorer := initExplorer root
    overview := { helpVisible := false, helpState := HelpState.keybindings,
                  state := OverviewState.all, previewState := PreviewState.reprMode }
    mainStyle := BorderStyle.mainBlue }

/-- A terminal-session action emitted by the application: clearing the
screen, hiding or showing the cursor, drawing one frame, or printing the
crash diagnostic of the outer boundary. -/
inductive TermAct where
  | clearScreen | hideCursor | showCursor | drewFrame | printedDiag
deriving DecidableEq, Repr

/-- The terminal actions emitted inside the event loop: the top-of-loop
`self.draw()` emits one frame per iteration, and the only cursor-affecting
output inside the loop is the re-hide escape sequence printed after a
successful editor launch (objexplore.py line 356) — nothing inside the loop
ever shows the cursor. -/
def bodyTrace : AppState → List KeyInput → List TermAct
  | _, [] => []
  | s, i :: rest =>
    match i.drawErr with
    | some e => if isReentrant e then bodyTrace s rest else []
    | none =>
      TermAct.drewFrame ::
      (if i.key = Key.ch 'O' ∧ i.subErr = none then [TermAct.hideCursor] else []) ++
      (match processKeyEvent s i.key i.subErr with
       | PKResult.ok s2 => bodyTrace s2 rest
       | PKResult.stop _ => []
       | PKResult.exc e s2 => if isReentrant e then bodyTrace s2 rest else [])

/-- The terminal contract of `ObjExploreApp.explore` (objexplore.py lines
59–93): the screen is cleared (line 66), then the `hidden_cursor` context
manager hides the cursor for the whole `with` block and — by the semantics
of the `with` statement — shows it again when the block is left on any path,
normal or exceptional; on the normal path line 91 additionally prints the
show-cursor escape sequence. -/
def sessionTrace (root : CObj) (inputs : List KeyInput) : List TermAct :=
  [TermAct.clearScreen, TermAct.hideCursor] ++
  bodyTrace (initApp root) inputs ++
  [TermAct.showCursor] ++
  (match loop (initApp root) inputs with
   | LoopResult.exited _ _ => [TermAct.showCursor]
   | _ => [])

/-- Cursor visibility after a list of terminal actions, starting from a
visible cursor. -/
def cursorVisibleAfter (tr : List TermAct) : Bool :=
  tr.foldl (fun v a =>
    match a with
    | TermAct.hideCursor => false
    | TermAct.showCursor => true
    | _ => v) true

/-- The outcome of the module-level entry point `explore` (objexplore.py
lines 419–461): either the value returned by `app.explore()` or the
diagnostic path of the outermost `except Exception` handler, which prints
the traceback and lets the function end. -/
inductive SessionResult where
  | finished (res : Option PyObj)
  | diagnosed (e : PyErr)
  | pending

/-- The module-level entry point `explore` (objexplore.py lines 419–461):
`app.explore()` is run under a single `try/except Exception` — a normal exit
returns the loop result to the caller, and any exception escaping the loop
is caught once, here, and answered with the printed traceback. -/
def outerExplore (root : CObj) (inputs : List KeyInput) : SessionResult :=
  match loop (initApp root) inputs with
  | LoopResult.exited res _ => SessionResult.finished res
  | LoopResult.raised e _ => SessionResult.diagnosed e
  | LoopResult.ranOut _ => SessionResult.pending

/-- The full terminal trace of one call to the entry point: the session
trace of `app.explore()` followed by the traceback printed by the outermost
handler when an exception escaped the loop. -/
def outerTrace (root : CObj) (inputs : List KeyInput) : List TermAct :=
  sessionTrace root inputs ++
  (match loop (initApp root) inputs with
   | LoopResult.raised _ _ => [TermAct.printedDiag]
   | _ => [])

/-- All session states reachable from a fresh session on `root` through
normally-completed key events. -/
inductive Reach (root : CObj) : AppState → Prop where
  | base : Reach root (initApp root)
  | step (s : AppState) (k : Key) (oe : Option PyErr) (s2 : AppState) :
      Reach root s → processKeyEvent s k oe = PKResult.ok s2 → Reach root s2

/-- The five display states of the specification read off a session state:
`FilterInput` is the filter capture flag, `HelpOverlay` the help visibility,
`StackBrowsing` the stack-overlay visibility, and `ErrorOverlay` the alert
border style. -/
def modeFlags (s : AppState) : List Bool :=
  [s.explorer.filter.receivingInput, s.overview.helpVisible,
   s.explorer.stackVisible, decide (s.mainStyle = BorderStyle.errorRed)]

/-- Mutual exclusivity of the display states: at most one of the four
non-Normal states is active. -/
def mutuallyExclusive (s : AppState) : Prop :=
  (modeFlags s).count true ≤ 1

/-- A concrete callable leaf object. -/
def callableLeaf : CObj := CObj.node "fn" { oid := 2, isCallable := true } [] []

/-- A concrete non-callable leaf object. -/
def plainLeaf : CObj := CObj.node "val" { oid := 3, isCallable := false } [] []

/-- A concrete root object with one callable and one plain public child. -/
def sampleRoot : CObj :=
  CObj.node "root" { oid := 1, isCallable := false } [callableLeaf, plainLeaf] []

/-- The fresh session state on the sample root. -/
def app0 : AppState := initApp sampleRoot

/-- `screen_name` of qrcodeGenerator.py line 4: the f-string
`qrcode{0}.png` with the literal digit zero interpolated. -/
def screen_name : String := "qrcode" ++ toString 0 ++ ".png"

/-- An observable action of the QR-code generator script. -/
inductive QrAct where
  | promptedForData
  | savedImage (file : String) (data : String)
  | printedLine (msg : String)
deriving DecidableEq, Repr

/-- qrcodeGenerator.py lines 4–17 as a function of the user-supplied input:
`screen_name` is computed before the input is read, the QR image built from
the input is saved under `screen_name`, and "created!" is printed. -/
def qrProgram (user_data : String) : List QrAct :=
  [QrAct.promptedForData,
   QrAct.savedImage screen_name user_data,
   QrAct.printedLine "created!"]

/-! ## Helper lemmas -/

/-- A handler outcome never embeds to `StopIteration`. -/
theorem HandlerResult.toPK_ne_stop (r : HandlerResult) (s2 : AppState) :
    r.toPK ≠ PKResult.stop s2 := by
  cases r <;> simp [HandlerResult.toPK]

/-- Inversion of a `StopIteration` outcome: `process_key_event` raises
`StopIteration` only from the quit/return check at objexplore.py line 123,
so the filter was not receiving input, the key was one of q/Q/r, and the
state is unchanged. -/
theorem processKeyEvent_stop_inversion (s : AppState) (k : Key) (oe : Option PyErr)
    (s2 : AppState) (h : processKeyEvent s k oe = PKResult.stop s2) :
    s.explorer.filter.receivingInput = false ∧ isQuitKey k = true ∧ s2 = s := by
  unfold processKeyEvent at h
  by_cases hrec : s.explorer.filter.receivingInput = true
  · rw [if_pos hrec] at h
    exact absurd h (HandlerResult.toPK_ne_stop _ s2)
  · rw [if_neg hrec] at h
    by_cases hq : isQuitKey k = true
    · rw [if_pos hq] at h
      injection h with h2
      exact ⟨by simpa using hrec, hq, h2.symm⟩
    · rw [if_neg hq] at h
      by_cases hv : s.overview.helpVisible = true
      · rw [if_pos hv] at h
        rcases hh : helpHandle s k oe with r | s1 <;> rw [hh] at h <;>
          exact absurd h (HandlerResult.toPK_ne_stop _ s2)
      · rw [if_neg hv] at h
        exact absurd h (HandlerResult.toPK_ne_stop _ s2)

/-- While the filter is receiving input, `process_key_event` reduces to the
input-capture branch. -/
theorem processKeyEvent_receiving (s : AppState) (k : Key) (oe : Option PyErr)
    (hrec : s.explorer.filter.receivingInput = true) :
    processKeyEvent s k oe = (filterInputHandle s k oe).toPK := by
  unfold processKeyEvent
  rw [if_pos hrec]

/-- The input-capture branch only edits the filter state: the overview, the
stack overlay, the filter overlay visibility and the border style are left
untouched in the resulting state. -/
theorem filterInputHandle_only_filter (s : AppState) (k : Key) (oe : Option PyErr) :
    (filterInputHandle s k oe).state.overview = s.overview ∧
    (filterInputHandle s k oe).state.explorer.stackVisible = s.explorer.stackVisible ∧
    (filterInputHandle s k oe).state.explorer.filter.layoutVisible = s.explorer.filter.layoutVisible ∧
    (filterInputHandle s k oe).state.mainStyle = s.mainStyle := by
  cases k with
  | ch c =>
    cases oe <;>
      simp [filterInputHandle, raisedOr, HandlerResult.state, updFilter, updE,
        FilterState.addSearchChar]
  | code kc =>
    cases kc <;> cases oe <;>
      simp [filterInputHandle, raisedOr, HandlerResult.state, updFilter, updE,
        FilterState.backspace, FilterState.cancelSearch, FilterState.endSearch,
        FilterState.cursorLeft, FilterState.cursorRight]

/-- A reentrant-write `RuntimeError` raised by the top-of-loop draw is
dropped: the iteration is skipped and the loop continues unchanged. -/
theorem loop_reentrant_draw_skipped (s : AppState) (k : Key) (oe : Option PyErr)
    (rest : List KeyInput) :
    loop s ({ key := k, drawErr := some (PyErr.runtimeError reentrantMsg), subErr := oe } :: rest) =
      loop s rest := by
  simp [loop, isReentrant]

/-- Any non-reentrant exception raised by the top-of-loop draw is re-raised
out of the loop. -/
theorem loop_draw_raises (s : AppState) (k : Key) (oe : Option PyErr)
    (rest : List KeyInput) (e : PyErr) (h : isReentrant e = false) :
    loop s ({ key := k, drawErr := some e, subErr := oe } :: rest) =
      LoopResult.raised e s := by
  simp [loop, h]

/-- A reentrant-write `RuntimeError` escaping `process_key_event` is dropped
and the loop continues from the state at the raise point. -/
theorem loop_reentrant_key_skipped (s : AppState) (i : KeyInput) (rest : List KeyInput)
    (s2 : AppState) (hd : i.drawErr = none)
    (hp : processKeyEvent s i.key i.subErr = PKResult.exc (PyErr.runtimeError reentrantMsg) s2) :
    loop s (i :: rest) = loop s2 rest := by
  obtain ⟨k, d, su⟩ := i
  simp only at hd hp
  subst hd
  simp [loop, hp, isReentrant]

/-- Any non-reentrant exception escaping `process_key_event` is re-raised
out of the loop with the state at the raise point. -/
theorem loop_key_raises (s : AppState) (i : KeyInput) (rest : List KeyInput)
    (e : PyErr) (s2 : AppState) (hd : i.drawErr = none) (hre : isReentrant e = false)
    (hp : processKeyEvent s i.key i.subErr = PKResult.exc e s2) :
    loop s (i :: rest) = LoopResult.raised e s2 := by
  obtain ⟨k, d, su⟩ := i
  simp only at hd hp
  subst hd
  simp [loop, hp, hre]

/-- A normally-completed key event advances the loop to the updated state. -/
theorem loop_key_ok (s : AppState) (i : KeyInput) (rest : List KeyInput)
    (s2 : AppState) (hd : i.drawErr = none)
    (hp : processKeyEvent s i.key i.subErr = PKResult.ok s2) :
    loop s (i :: rest) = loop s2 rest := by
  obtain ⟨k, d, su⟩ := i
  simp only at hd hp
  subst hd
  simp [loop, hp]

/-! ## Claims -/

/-- C10: for every user-supplied input string, the QR-code generator saves
the generated image under the fixed filename "qrcode0.png" — independent of
the input — and then prints "created!". -/
theorem claim_C10_qr_fixed_filename (user_data : String) :
    qrProgram user_data =
      [QrAct.promptedForData,
       QrAct.savedImage "qrcode0.png" user_data,
       QrAct.printedLine "created!"] := rfl

/-- C5 (code bug): the error routine switches the border style to the alert
style, but it never reverts it — the final statement of
`ObjExploreApp.error` is the self-assignment `self.main_style =
self.main_style` (objexplore.py line 416), so the post-state style is the
error style for every pre-state, and in particular differs from a blue
pre-error style. -/
theorem claim_C5_error_style_never_reverts :
    (∀ s, (errorRoutine s).mainStyle = BorderStyle.errorRed) ∧
    (errorRoutine app0).mainStyle ≠ app0.mainStyle ∧
    app0.mainStyle = BorderStyle.mainBlue := by
  refine ⟨fun s => rfl, ?_, rfl⟩
  decide

/-- C4: a redraw-reentrancy `RuntimeError` (the reentrant-stdout write
raised when a resize-triggered redraw overlaps an in-flight draw) is
detected by the exact-message check and silently dropped for that cycle —
the loop continues, nothing is queued, the session survives — whether it
surfaces from the draw or from key processing; while every other failure
raised during draw or key handling is re-raised out of the loop rather than
swallowed by this mechanism. -/
theorem claim_C4_reentrant_redraw_dropped :
    (∀ s k oe rest,
      loop s ({ key := k, drawErr := some (PyErr.runtimeError reentrantMsg), subErr := oe } :: rest) =
        loop s rest) ∧
    (∀ s i rest s2, i.drawErr = none →
      processKeyEvent s i.key i.subErr = PKResult.exc (PyErr.runtimeError reentrantMsg) s2 →
      loop s (i :: rest) = loop s2 rest) ∧
    (∀ s k oe rest e, isReentrant e = false →
      loop s ({ key := k, drawErr := some e, subErr := oe } :: rest) = LoopResult.raised e s) ∧
    (∀ s i rest e s2, i.drawErr = none → isReentrant e = false →
      processKeyEvent s i.key i.subErr = PKResult.exc e s2 →
      loop s (i :: rest) = LoopResult.raised e s2) := by
  refine ⟨?_, ?_, ?_, ?_⟩
  · exact fun s k oe rest => loop_reentrant_draw_skipped s k oe rest
  · exact fun s i rest s2 hd hp => loop_reentrant_key_skipped s i rest s2 hd hp
  · exact fun s k oe rest e h => loop_draw_raises s k oe rest e h
  · exact fun s i rest e s2 hd hre hp => loop_key_raises s i rest e s2 hd hre hp

/-- C4 witness: the four behaviours at concrete inputs — a reentrant draw
error is skipped, a reentrant key-handling error is skipped, and plain
errors from draw and from key handling are both re-raised. -/
theorem claim_C4_reentrant_redraw_dropped_witness :
    loop app0 [{ key := Key.ch 'q', drawErr := some (PyErr.runtimeError reentrantMsg), subErr := none }] =
      loop app0 [] ∧
    loop app0 [{ key := Key.ch 'q', drawErr := some (PyErr.runtimeError "boom"), subErr := none }] =
      LoopResult.raised (PyErr.runtimeError "boom") app0 ∧
    loop app0 [{ key := Key.ch 'j', drawErr := none, subErr := some (PyErr.otherError "boom") }] =
      LoopResult.raised (PyErr.otherError "boom") app0 :=
  ⟨claim_C4_reentrant_redraw_dropped.1 app0 (Key.ch 'q') none [],
   claim_C4_reentrant_redraw_dropped.2.2.1 app0 (Key.ch 'q') none []
     (PyErr.runtimeError "boom") rfl,
   claim_C4_reentrant_redraw_dropped.2.2.2 app0
     { key := Key.ch 'j', drawErr := none, subErr := some (PyErr.otherError "boom") } []
     (PyErr.otherError "boom") app0 rfl rfl rfl⟩

/-- C2 counterexample: a recoverable failure raised while processing an
ordinary key (here a failure inside the move-down handler for key j) is NOT
caught inside the event loop and does NOT trigger the error overlay — it
propagates out of the loop, refuting the claim that every unexpected failure
during key processing is caught in the loop with the `ErrorOverlay`
triggered. -/
theorem claim_C2_cx_key_failure_escapes_loop :
    loop app0 [{ key := Key.ch 'j', drawErr := none, subErr := some (PyErr.otherError "boom") }] =
      LoopResult.raised (PyErr.otherError "boom") app0 ∧
    app0.mainStyle ≠ BorderStyle.errorRed := by
  exact ⟨rfl, by decide⟩

/-- C2 (amended): only a failure raised while opening the selected object in
the external editor (key O, objexplore.py lines 351–358) is caught during
key processing, triggering the error routine; the reentrant-stdout
`RuntimeError` is silently dropped by the loop; every other failure raised
while processing a key propagates out of the event loop. -/
theorem claim_C2_only_editor_failures_caught :
    (∀ s e, s.explorer.filter.receivingInput = false → s.overview.helpVisible = false →
      processKeyEvent s (Key.ch 'O') (some e) = PKResult.ok (errorRoutine s)) ∧
    (∀ s i rest s2, i.drawErr = none →
      processKeyEvent s i.key i.subErr = PKResult.exc (PyErr.runtimeError reentrantMsg) s2 →
      loop s (i :: rest) = loop s2 rest) ∧
    (∀ s i rest e s2, i.drawErr = none → isReentrant e = false →
      processKeyEvent s i.key i.subErr = PKResult.exc e s2 →
      loop s (i :: rest) = LoopResult.raised e s2) := by
  refine ⟨?_, ?_, ?_⟩
  · intro s e hrec hhelp
    simp [processKeyEvent, isQuitKey, hrec, hhelp, mainDispatch, HandlerResult.toPK,
      lbrace, rbrace]
  · exact fun s i rest s2 hd hp => loop_reentrant_key_skipped s i rest s2 hd hp
  · exact fun s i rest e s2 hd hre hp => loop_key_raises s i rest e s2 hd hre hp

/-- C2 amended witness: at concrete inputs — a failed editor launch is
caught and flips the border style to the alert style, and a failure under
key j escapes the loop. -/
theorem claim_C2_only_editor_failures_caught_witness :
    processKeyEvent app0 (Key.ch 'O') (some (PyErr.otherError "ed")) =
      PKResult.ok (errorRoutine app0) ∧
    loop app0 [{ key := Key.ch 'j', drawErr := none, subErr := some (PyErr.otherError "boom") }] =
      LoopResult.raised (PyErr.otherError "boom") app0 :=
  ⟨claim_C2_only_editor_failures_caught.1 app0 (PyErr.otherError "ed") rfl rfl,
   claim_C2_only_editor_failures_caught.2.2 app0
     { key := Key.ch 'j', drawErr := none, subErr := some (PyErr.otherError "boom") } []
     (PyErr.otherError "boom") app0 rfl rfl rfl⟩

/-- An element of the per-iteration frame-and-rehide prefix is a drawn frame
or a cursor hide. -/
theorem memFrameHide (k : Key) (su : Option PyErr) (a : TermAct)
    (h : a ∈ TermAct.drewFrame ::
      (if k = Key.ch 'O' ∧ su = none then [TermAct.hideCursor] else [])) :
    a = TermAct.drewFrame ∨ a = TermAct.hideCursor := by
  rcases List.mem_cons.mp h with h1 | h2
  · exact Or.inl h1
  · by_cases ho : k = Key.ch 'O' ∧ su = none
    · rw [if_pos ho] at h2
      simp at h2
      exact Or.inr h2
    · rw [if_neg ho] at h2
      simp at h2

/-- Everything the loop body writes to the terminal is a drawn frame or the
post-editor re-hide: in particular the loop body never shows the cursor and
never prints the crash diagnostic. -/
theorem bodyTrace_mem (inputs : List KeyInput) :
    ∀ s a, a ∈ bodyTrace s inputs → a = TermAct.drewFrame ∨ a = TermAct.hideCursor := by
  induction inputs with
  | nil => intro s a ha; simp [bodyTrace] at ha
  | cons i rest ih =>
    intro s a ha
    obtain ⟨k, d, su⟩ := i
    cases d with
    | some e =>
      simp only [bodyTrace] at ha
      by_cases hre : isReentrant e = true
      · rw [if_pos hre] at ha
        exact ih s a ha
      · rw [if_neg hre] at ha
        simp at ha
    | none =>
      simp only [bodyTrace] at ha
      cases hp : processKeyEvent s k su with
      | ok s2 =>
        rw [hp] at ha
        rcases List.mem_append.mp ha with h1 | h2
        · exact memFrameHide k su a h1
        · exact ih s2 a (by simpa using h2)
      | stop s2 =>
        rw [hp] at ha
        rcases List.mem_append.mp ha with h1 | h2
        · exact memFrameHide k su a h1
        · simp at h2
      | exc e2 s2 =>
        rw [hp] at ha
        rcases List.mem_append.mp ha with h1 | h2
        · exact memFrameHide k su a h1
        · have h3 : a ∈ (if isReentrant e2 = true then bodyTrace s2 rest else []) := by
            simpa using h2
          by_cases hre : isReentrant e2 = true
          · rw [if_pos hre] at h3
            exact ih s2 a h3
          · rw [if_neg hre] at h3
            simp at h3

/-- The session trace of `app.explore()` never prints the crash
diagnostic — only the outermost boundary does. -/
theorem sessionTrace_no_diag (root : CObj) (inputs : List KeyInput) :
    TermAct.printedDiag ∉ sessionTrace root inputs := by
  intro hmem
  unfold sessionTrace at hmem
  rcases List.mem_append.mp hmem with h1 | h2
  · rcases List.mem_append.mp h1 with h3 | h4
    · rcases List.mem_append.mp h3 with h5 | h6
      · simp at h5
      · rcases bodyTrace_mem inputs (initApp root) _ h6 with h | h <;> simp at h
    · simp at h4
  · rcases hl : loop (initApp root) inputs <;> rw [hl] at h2 <;> simp at h2

/-- C3: every failure that escapes the event loop is caught exactly once at
the outermost boundary of the entry point — the session ends in the
diagnosed state rather than re-raising, and exactly one diagnostic traceback
is printed over the whole session. -/
theorem claim_C3_outer_boundary_catches (root : CObj) (inputs : List KeyInput)
    (e : PyErr) (s : AppState)
    (h : loop (initApp root) inputs = LoopResult.raised e s) :
    outerExplore root inputs = SessionResult.diagnosed e ∧
    (outerTrace root inputs).count TermAct.printedDiag = 1 := by
  constructor
  · unfold outerExplore
    rw [h]
  · unfold outerTrace
    rw [h]
    rw [List.count_append]
    rw [List.count_eq_zero.mpr (sessionTrace_no_diag root inputs)]
    rfl

/-- C3 witness: a session whose j-handler raises is diagnosed at the outer
boundary with one printed traceback. -/
theorem claim_C3_outer_boundary_catches_witness :
    outerExplore sampleRoot
        [{ key := Key.ch 'j', drawErr := none, subErr := some (PyErr.otherError "boom") }] =
      SessionResult.diagnosed (PyErr.otherError "boom") ∧
    (outerTrace sampleRoot
        [{ key := Key.ch 'j', drawErr := none, subErr := some (PyErr.otherError "boom") }]).count
      TermAct.printedDiag = 1 :=
  claim_C3_outer_boundary_catches sampleRoot
    [{ key := Key.ch 'j', drawErr := none, subErr := some (PyErr.otherError "boom") }]
    (PyErr.otherError "boom") app0 rfl

/-- C8: the session clears the screen and hides the cursor first, nothing in
the loop body ever shows the cursor, and on every exit path — normal return,
quit, or a failure diagnosed at the outer boundary — the cursor is visible
again by the time the entry point finishes. -/
theorem claim_C8_terminal_contract (root : CObj) (inputs : List KeyInput) :
    (sessionTrace root inputs).take 2 = [TermAct.clearScreen, TermAct.hideCursor] ∧
    TermAct.showCursor ∉ bodyTrace (initApp root) inputs ∧
    cursorVisibleAfter (outerTrace root inputs) = true := by
  refine ⟨rfl, ?_, ?_⟩
  · intro hmem
    rcases bodyTrace_mem inputs (initApp root) _ hmem with h | h <;> simp at h
  · rcases hl : loop (initApp root) inputs <;>
      simp [outerTrace, sessionTrace, hl, cursorVisibleAfter, List.foldl_append]

/-- Inversion of a normal loop exit: the loop leaves `while True` only
through the `StopIteration` break, so the terminating key was one of q/Q/r
pressed outside filter capture, and the value delivered to the caller is the
selected object for "r" and nothing for "q"/"Q". -/
theorem loop_exited_inversion (inputs : List KeyInput) :
    ∀ s res sEnd, loop s inputs = LoopResult.exited res sEnd →
      ∃ k, isQuitKey k = true ∧ sEnd.explorer.filter.receivingInput = false ∧
        res = (if k = Key.ch 'r' then some sEnd.explorer.selectedObject.obj else none) := by
  induction inputs with
  | nil =>
    intro s res sEnd h
    exact absurd h (by simp [loop])
  | cons i rest ih =>
    intro s res sEnd h
    obtain ⟨k, d, su⟩ := i
    cases d with
    | some e =>
      simp only [loop] at h
      by_cases hre : isReentrant e = true
      · rw [if_pos hre] at h
        exact ih s res sEnd h
      · rw [if_neg hre] at h
        simp at h
    | none =>
      simp only [loop] at h
      cases hp : processKeyEvent s k su with
      | ok s2 =>
        rw [hp] at h
        exact ih s2 res sEnd (by simpa using h)
      | stop s2 =>
        rw [hp] at h
        simp only at h
        injection h with h1 h2
        obtain ⟨hrec, hq, hs⟩ := processKeyEvent_stop_inversion s k su s2 hp
        refine ⟨k, hq, ?_, ?_⟩
        · rw [← h2, hs]
          simpa using hrec
        · rw [← h1, h2]
      | exc e2 s2 =>
        rw [hp] at h
        have h3 : (if isReentrant e2 = true then loop s2 rest else LoopResult.raised e2 s2) =
            LoopResult.exited res sEnd := by simpa using h
        by_cases hre : isReentrant e2 = true
        · rw [if_pos hre] at h3
          exact ih s2 res sEnd h3
        · rw [if_neg hre] at h3
          simp at h3

/-- C1: the event loop terminates normally only through a quit or return
command, and the entry point hands the loop result to the caller: a session
ending on the return key "r" yields the selected object's underlying
reference, and a session ending on "q"/"Q" yields nothing. -/
theorem claim_C1_exit_yields_selection (root : CObj) (inputs : List KeyInput)
    (res : Option PyObj) (sEnd : AppState)
    (h : loop (initApp root) inputs = LoopResult.exited res sEnd) :
    outerExplore root inputs = SessionResult.finished res ∧
    ∃ k, isQuitKey k = true ∧ sEnd.explorer.filter.receivingInput = false ∧
      res = (if k = Key.ch 'r' then some sEnd.explorer.selectedObject.obj else none) := by
  constructor
  · unfold outerExplore
    rw [h]
  · exact loop_exited_inversion inputs (initApp root) res sEnd h

/-- C1 witness: a session ending on "q" finishes with no result, and a
session ending on "r" finishes with the selected object's reference. -/
theorem claim_C1_exit_yields_selection_witness :
    (outerExplore sampleRoot [{ key := Key.ch 'q', drawErr := none, subErr := none }] =
      SessionResult.finished none ∧
     ∃ k, isQuitKey k = true ∧ app0.explorer.filter.receivingInput = false ∧
       (none : Option PyObj) =
         (if k = Key.ch 'r' then some app0.explorer.selectedObject.obj else none)) ∧
    (outerExplore sampleRoot [{ key := Key.ch 'r', drawErr := none, subErr := none }] =
      SessionResult.finished (some { oid := 2, isCallable := true }) ∧
     ∃ k, isQuitKey k = true ∧ app0.explorer.filter.receivingInput = false ∧
       (some { oid := 2, isCallable := true } : Option PyObj) =
         (if k = Key.ch 'r' then some app0.explorer.selectedObject.obj else none)) :=
  ⟨claim_C1_exit_yields_selection sampleRoot
      [{ key := Key.ch 'q', drawErr := none, subErr := none }] none app0 rfl,
   claim_C1_exit_yields_selection sampleRoot
      [{ key := Key.ch 'r', drawErr := none, subErr := none }]
      (some { oid := 2, isCallable := true }) app0 rfl⟩

/-- C9: outside filter capture the keys q/Q/r end the loop immediately by
raising `StopIteration`, whatever overlays are visible — the quit check at
objexplore.py line 122 precedes every overlay section; while filter capture
is active no key can raise `StopIteration`, and a printable key such as q is
consumed into the search buffer at the cursor instead. -/
theorem claim_C9_quit_keys_vs_capture :
    (∀ s k oe, s.explorer.filter.receivingInput = false → isQuitKey k = true →
      processKeyEvent s k oe = PKResult.stop s) ∧
    (∀ s k oe s2, s.explorer.filter.receivingInput = true →
      processKeyEvent s k oe ≠ PKResult.stop s2) ∧
    (∀ s c, s.explorer.filter.receivingInput = true →
      (processKeyEvent s (Key.ch c) none).state.explorer.filter.searchBuffer =
        s.explorer.filter.searchBuffer.take s.explorer.filter.cursorPos ++ [c] ++
          s.explorer.filter.searchBuffer.drop s.explorer.filter.cursorPos) := by
  refine ⟨?_, ?_, ?_⟩
  · intro s k oe hrec hq
    unfold processKeyEvent
    rw [if_neg (by simp [hrec]), if_pos hq]
  · intro s k oe s2 hrec
    rw [processKeyEvent_receiving s k oe hrec]
    exact HandlerResult.toPK_ne_stop _ s2
  · intro s c hrec
    rw [processKeyEvent_receiving s (Key.ch c) none hrec]
    simp [filterInputHandle, raisedOr, HandlerResult.toPK, PKResult.state,
      updFilter, updE, FilterState.addSearchChar]

/-- C9 witness: with capture off, q stops the loop; with capture on, q is
absorbed into the search buffer and does not stop the loop. -/
theorem claim_C9_quit_keys_vs_capture_witness :
    processKeyEvent app0 (Key.ch 'q') none = PKResult.stop app0 ∧
    processKeyEvent (updFilter app0 fun f => { f with receivingInput := true })
        (Key.ch 'q') none ≠ PKResult.stop app0 ∧
    (processKeyEvent (updFilter app0 fun f => { f with receivingInput := true })
        (Key.ch 'q') none).state.explorer.filter.searchBuffer = ['q'] :=
  ⟨claim_C9_quit_keys_vs_capture.1 app0 (Key.ch 'q') none rfl rfl,
   claim_C9_quit_keys_vs_capture.2.1
     (updFilter app0 fun f => { f with receivingInput := true }) (Key.ch 'q') none app0 rfl,
   claim_C9_quit_keys_vs_capture.2.2
     (updFilter app0 fun f => { f with receivingInput := true }) 'q' rfl⟩

/-- C7: with no capture and no help or stack overlay in the way, the curly
bracket keys toggle the overview preview between representation and source
when the selected object is callable, and leave the whole state unchanged
when it is not. -/
theorem claim_C7_preview_toggle_requires_callable (s : AppState) (k : Key)
    (oe : Option PyErr)
    (hrec : s.explorer.filter.receivingInput = false)
    (hhelp : s.overview.helpVisible = false)
    (hstack : s.explorer.stackVisible = false)
    (hk : k = Key.ch lbrace ∨ k = Key.ch rbrace) :
    (s.explorer.selectedObject.obj.isCallable = true →
      processKeyEvent s k oe =
        PKResult.ok (updO s fun o => { o with previewState := flipPreview o.previewState })) ∧
    (s.explorer.selectedObject.obj.isCallable = false →
      processKeyEvent s k oe = PKResult.ok s) ∧
    flipPreview PreviewState.reprMode = PreviewState.sourceMode ∧
    flipPreview PreviewState.sourceMode = PreviewState.reprMode := by
  refine ⟨?_, ?_, rfl, rfl⟩ <;> intro hc <;> rcases hk with rfl | rfl <;>
    simp [processKeyEvent, isQuitKey, hrec, hhelp, hstack, mainDispatch, hc,
      HandlerResult.toPK, lbrace, rbrace]

/-- C7 witness: on the sample session the selected object is callable and
the opening curly bracket switches the preview to source; after moving the
selection down to a non-callable object the same key changes nothing. -/
theorem claim_C7_preview_toggle_requires_callable_witness :
    (processKeyEvent app0 (Key.ch lbrace) none =
      PKResult.ok (updO app0 fun o => { o with previewState := flipPreview o.previewState })) ∧
    (processKeyEvent (updE app0 Explorer.moveDown) (Key.ch rbrace) none =
      PKResult.ok (updE app0 Explorer.moveDown)) :=
  ⟨(claim_C7_preview_toggle_requires_callable app0 (Key.ch lbrace) none rfl rfl rfl
      (Or.inl rfl)).1 rfl,
   ((claim_C7_preview_toggle_requires_callable (updE app0 Explorer.moveDown)
      (Key.ch rbrace) none rfl rfl rfl (Or.inr rfl)).2.1 rfl)⟩

/-- The state after pressing o in the fresh sample session: the stack
overlay becomes visible. -/
def app1 : AppState := (processKeyEvent app0 (Key.ch 'o') none).state

/-- The state after then pressing the question-mark key: the help overlay
opens while the stack overlay is still visible. -/
def app2 : AppState := (processKeyEvent app1 (Key.ch '?') none).state

/-- The keys for which the visible help overlay closes itself and lets the
key fall through to the lower layers (objexplore.py lines 152–158). -/
def isHelpFallthrough : Key → Bool
  | Key.ch c => c == 'j' || c == 'k' || c == 'o' || c == 'n'
  | Key.code kc => kc == KeyCode.up || kc == KeyCode.down

/-- Embedding a handler outcome preserves the carried state. -/
theorem HandlerResult.toPK_state (r : HandlerResult) : r.toPK.state = r.state := by
  cases r <;> rfl

/-- The help-page section touches only the help overlay state: an early
return leaves the explorer and the border style unchanged, and the
fall-through closes the help overlay — also leaving the lower layers
unchanged — and happens only for the fall-through keys. -/
theorem helpHandle_preserves_lower (s : AppState) (k : Key) (oe : Option PyErr) :
    (∀ r, helpHandle s k oe = Sum.inl r →
      r.state.explorer = s.explorer ∧ r.state.mainStyle = s.mainStyle) ∧
    (∀ s1, helpHandle s k oe = Sum.inr s1 →
      s1.explorer = s.explorer ∧ s1.mainStyle = s.mainStyle ∧
      s1.overview.helpVisible = false ∧ isHelpFallthrough k = true) := by
  unfold helpHandle
  split_ifs with h1 h2 h3 h4
  · refine ⟨fun r hr => ?_, fun s1 hs => ?_⟩
    · injection hr with h
      subst h
      simp [HandlerResult.state, setHelpVisible, updO]
    · exact absurd hs (by simp)
  · refine ⟨fun r hr => ?_, fun s1 hs => ?_⟩
    · injection hr with h
      subst h
      cases oe <;> simp [raisedOr, HandlerResult.state]
    · exact absurd hs (by simp)
  · refine ⟨fun r hr => ?_, fun s1 hs => ?_⟩
    · injection hr with h
      subst h
      simp [HandlerResult.state, updO]
    · exact absurd hs (by simp)
  · refine ⟨fun r hr => ?_, fun s1 hs => ?_⟩
    · exact absurd hr (by simp)
    · injection hs with h
      subst h
      refine ⟨rfl, rfl, rfl, ?_⟩
      rcases h4 with h | h | h | h | h | h <;> subst h <;> rfl
  · refine ⟨fun r hr => ?_, fun s1 hs => ?_⟩
    · injection hr with h
      subst h
      exact ⟨rfl, rfl⟩
    · exact absurd hs (by simp)

/-- C6 counterexample: the display states are not mutually exclusive over
the reachable states — pressing o (stack overlay) and then the question-mark
key (help overlay) in a fresh session yields a reachable state with two
overlay states active at once. -/
theorem claim_C6_cx_overlays_not_exclusive :
    ¬ (∀ root s, Reach root s → mutuallyExclusive s) := by
  intro hall
  have r1 : Reach sampleRoot app1 := Reach.step app0 (Key.ch 'o') none app1 Reach.base rfl
  have r2 : Reach sampleRoot app2 := Reach.step app1 (Key.ch '?') none app2 r1 rfl
  exact absurd (hall sampleRoot app2 r2) (by unfold mutuallyExclusive; decide)

/-- C6 (amended): the overlay flags can overlap in reachable states — the
help overlay can open on top of the visible stack overlay — and the
fall-through keys are handled by two layers; but every key event is
dispatched following the precedence order: filter input capture consumes
every key first (never ending the session, never touching the other
layers), then the quit/return check, then the visible help overlay (which
consumes every non-fall-through key without touching the lower layers),
then stack browsing, then filter browsing, then normal navigation — the
last three witnessed by the routing of the key j. -/
theorem claim_C6_dispatch_precedence :
    (∃ s, Reach sampleRoot s ∧ s.overview.helpVisible = true ∧
      s.explorer.stackVisible = true) ∧
    (∀ s k oe s2, s.explorer.filter.receivingInput = true →
      processKeyEvent s k oe ≠ PKResult.stop s2) ∧
    (∀ s k oe, s.explorer.filter.receivingInput = true →
      (processKeyEvent s k oe).state.overview = s.overview ∧
      (processKeyEvent s k oe).state.explorer.stackVisible = s.explorer.stackVisible ∧
      (processKeyEvent s k oe).state.explorer.filter.layoutVisible =
        s.explorer.filter.layoutVisible) ∧
    (∀ s k oe, s.explorer.filter.receivingInput = false → isQuitKey k = true →
      processKeyEvent s k oe = PKResult.stop s) ∧
    (∀ s k oe, s.explorer.filter.receivingInput = false → isQuitKey k = false →
      s.overview.helpVisible = true → isHelpFallthrough k = false →
      (processKeyEvent s k oe).state.explorer = s.explorer ∧
      (processKeyEvent s k oe).state.mainStyle = s.mainStyle) ∧
    (∀ s oe, s.explorer.filter.receivingInput = false →
      s.overview.helpVisible = false → s.explorer.stackVisible = true →
      processKeyEvent s (Key.ch 'j') oe =
        (raisedOr oe s (updE s Explorer.stackMoveDown)).toPK) ∧
    (∀ s oe, s.explorer.filter.receivingInput = false →
      s.overview.helpVisible = false → s.explorer.stackVisible = false →
      s.explorer.filter.layoutVisible = true →
      processKeyEvent s (Key.ch 'j') oe =
        (raisedOr oe s (updE s Explorer.filterMoveDown)).toPK) ∧
    (∀ s oe, s.explorer.filter.receivingInput = false →
      s.overview.helpVisible = false → s.explorer.stackVisible = false →
      s.explorer.filter.layoutVisible = false →
      processKeyEvent s (Key.ch 'j') oe =
        (raisedOr oe s (updE s Explorer.moveDown)).toPK) := by
  refine ⟨?_, ?_, ?_, ?_, ?_, ?_, ?_, ?_⟩
  · have r1 : Reach sampleRoot app1 :=
      Reach.step app0 (Key.ch 'o') none app1 Reach.base rfl
    have r2 : Reach sampleRoot app2 :=
      Reach.step app1 (Key.ch '?') none app2 r1 rfl
    exact ⟨app2, r2, rfl, rfl⟩
  · intro s k oe s2 hrec
    rw [processKeyEvent_receiving s k oe hrec]
    exact HandlerResult.toPK_ne_stop _ s2
  · intro s k oe hrec
    rw [processKeyEvent_receiving s k oe hrec, HandlerResult.toPK_state]
    obtain ⟨h1, h2, h3, h4⟩ := filterInputHandle_only_filter s k oe
    exact ⟨h1, h2, h3⟩
  · intro s k oe hrec hq
    unfold processKeyEvent
    rw [if_neg (by simp [hrec]), if_pos hq]
  · intro s k oe hrec hq hhelp hfall
    unfold processKeyEvent
    rw [if_neg (by simp [hrec]), if_neg (by simp [hq]), if_pos hhelp]
    rcases hh : helpHandle s k oe with r | s1
    · have hpres := (helpHandle_preserves_lower s k oe).1 r hh
      cases r <;> exact ⟨hpres.1, hpres.2⟩
    · have := ((helpHandle_preserves_lower s k oe).2 s1 hh).2.2.2
      simp [this] at hfall
  · intro s oe hrec hhelp hstack
    cases oe <;>
      simp [processKeyEvent, isQuitKey, hrec, hhelp, hstack, mainDispatch,
        raisedOr, HandlerResult.toPK]
  · intro s oe hrec hhelp hstack hfv
    cases oe <;>
      simp [processKeyEvent, isQuitKey, hrec, hhelp, hstack, hfv, mainDispatch,
        raisedOr, HandlerResult.toPK]
  · intro s oe hrec hhelp hstack hfv
    cases oe <;>
      simp [processKeyEvent, isQuitKey, hrec, hhelp, hstack, hfv, mainDispatch,
        raisedOr, HandlerResult.toPK]

/-- C6 amended witness: at concrete inputs — q stops a fresh session, the
key d under the overlapping help-and-stack state leaves the explorer
untouched, j with the stack overlay visible moves the stack selection, and
j in plain normal navigation moves the explorer selection. -/
theorem claim_C6_dispatch_precedence_witness :
    processKeyEvent app0 (Key.ch 'q') none = PKResult.stop app0 ∧
    (processKeyEvent app2 (Key.ch 'd') none).state.explorer = app2.explorer ∧
    processKeyEvent app1 (Key.ch 'j') none =
      (raisedOr none app1 (updE app1 Explorer.stackMoveDown)).toPK ∧
    processKeyEvent app0 (Key.ch 'j') none =
      (raisedOr none app0 (updE app0 Explorer.moveDown)).toPK :=
  ⟨claim_C6_dispatch_precedence.2.2.2.1 app0 (Key.ch 'q') none rfl rfl,
   (claim_C6_dispatch_precedence.2.2.2.2.1 app2 (Key.ch 'd') none rfl rfl rfl rfl).1,
   claim_C6_dispatch_precedence.2.2.2.2.2.1 app1 none rfl rfl rfl,
   claim_C6_dispatch_precedence.2.2.2.2.2.2.2 app0 none rfl rfl rfl rfl⟩
